import Mathlib

/-!
Verification of the `connection-helper` repository (modules `sql.py`, `pgp.py`,
`sec.py`) against its natural-language specification.

The Python code is shallowly embedded: every external effect (environment
variables, the filesystem, the database engines, `bcp`, the GPG keyring) is
made an explicit parameter, prints become a `printed : List String` field,
raised exceptions become an `Except PyError` result, and opened/closed
resource handles become an explicit event list.
-/

namespace ConnectionHelper

/-- Python truthiness of an optional string (`None` and `""` are falsy). -/
def truthy : Option String → Bool
  | none => false
  | some s => !s.isEmpty

/-- Python `f"{x}"` on a value that may be `None` (formats as `"None"`). -/
def pyStr : Option String → String
  | none => "None"
  | some s => s

/-- Exceptions the embedded functions can raise. -/
inductive PyError
  | valueError (msg : String)
  | keyError (key : String)
  | fileNotFoundError (msg : String)
  deriving DecidableEq, Repr

/-- The process environment, as seen by `os.getenv` / `os.environ`. -/
abbrev Env := String → Option String

/-- `host = os.getenv(host) if use_env else host` — the environment
resolution step shared by `connect_sql` and `load_from_mssql`. -/
def resolve (env : Env) (use_env : Bool) (x : String) : Option String :=
  if use_env then env x else some x

/-- Resource events: opening and closing a handle (numbered), reading data. -/
inductive Ev
  | openH (h : Nat)
  | closeH (h : Nat)
  | readData (name : String)
  deriving DecidableEq, Repr

/-- Handles opened in a trace. -/
def opensOf (t : List Ev) : List Nat :=
  t.filterMap (fun e => match e with | .openH h => some h | _ => none)

/-- Handles closed in a trace. -/
def closesOf (t : List Ev) : List Nat :=
  t.filterMap (fun e => match e with | .closeH h => some h | _ => none)

/-- Every handle opened in the trace is also closed in it. -/
def allClosed (t : List Ev) : Bool :=
  (opensOf t).all (fun h => (closesOf t).contains h)

/-- Outcome of `connect_sql` (sql.py:30-116): console output, the engine URL
if one was composed, the returned value (an open connection handle or
`None`), and the resource events. -/
structure ConnectOutcome where
  printed : List String
  url : Option String
  result : Except PyError (Option Nat)
  events : List Ev
  deriving Repr

/-- Embedding of `connect_sql` (sql.py:30-116).  External effects are
parameters: `env` is the process environment, `db_exists` is what
`database_exists(engine.url)` would report, and `connect_error` is
`none` when `engine.connect()` succeeds and `some msg` when it raises an
exception whose printed form is `msg`. -/
def connect_sql (env : Env) (db host user pw : String) (use_env : Bool)
    (dbms : String) (ensure_db_exists : Bool) (db_exists : Bool)
    (connect_error : Option String) : ConnectOutcome :=
  let hostR := resolve env use_env host
  let dbR := resolve env use_env db
  let userR := if use_env then (if user.isEmpty then some user else env user) else some user
  let pwR := if use_env then (if pw.isEmpty then some pw else env pw) else some pw
  if truthy hostR = false || truthy dbR = false then
    { printed := []
      url := none
      result := .error (.valueError "❌ Both host and db must be provided either through environment variables or directly as arguments.")
      events := [] }
  else
    let u := pyStr userR
    let p := pyStr pwR
    let h := pyStr hostR
    let d := pyStr dbR
    let urlO : Option String :=
      if dbms = "mssql" then some s!"mssql://{u}:{p}@{h}/{d}?driver=ODBC Driver 17 for SQL Server"
      else if dbms = "sqlite" then some s!"sqlite:///{d}"
      else if dbms = "postgres" then some s!"postgresql+psycopg2://{u}:{p}@{h}/{d}"
      else none
    match urlO with
    | none => { printed := ["dbms not supported"], url := none, result := .ok none, events := [] }
    | some url =>
      let ensure_printed : List String :=
        if ensure_db_exists then
          if db_exists then [s!"db {d} exists"] else [s!"db {d} created"]
        else []
      match connect_error with
      | none =>
        { printed := ensure_printed
          url := some url
          result := .ok (some 0)
          events := [.openH 0] }
      | some msg =>
        { printed := ensure_printed ++ [msg]
          url := some url
          result := .ok none
          events := [] }

/-- Embedding of the parameter check of `load_from_mssql` (sql.py:403-440):
after environment resolution, an empty/missing host or db raises
`ValueError`; otherwise the function proceeds with the resolved pair. -/
def load_from_mssql (env : Env) (host db : String) (use_env : Bool) :
    Except PyError (String × String) :=
  let hostR := resolve env use_env host
  let dbR := resolve env use_env db
  if truthy hostR = false || truthy dbR = false then
    .error (.valueError "❌ Both host and db must be provided either through environment variables or directly as arguments.")
  else
    .ok (pyStr hostR, pyStr dbR)

/-- A filesystem path as `print_meta` inspects it: its printed form, whether
it exists, and its suffix. -/
structure PathInfo where
  path : String
  pexists : Bool
  suffix : String
  deriving DecidableEq, Repr

/-- Which kind of database file `print_meta` decides to open. -/
inductive DbKind
  | sqlite
  | duckdb
  deriving DecidableEq, Repr

/-- Embedding of the dispatch logic of `print_meta` (sql.py:346-401): a
missing path raises `FileNotFoundError`; suffixes `.db`/`.sqlite` open a
SQLite connection, `.duckdb` a DuckDB one, anything else raises
`ValueError`. -/
def print_meta (p : PathInfo) : Except PyError DbKind :=
  if p.pexists = false then
    .error (.fileNotFoundError ("File not found: " ++ p.path))
  else if p.suffix = ".db" || p.suffix = ".sqlite" then
    .ok .sqlite
  else if p.suffix = ".duckdb" then
    .ok .duckdb
  else
    .error (.valueError ("Unsupported file type: " ++ p.path))

/-- Resource events of `print_meta` (sql.py:346-401): nothing is opened when
the path is missing; otherwise the connection for a supported suffix is
opened and closed again (the `finally` block), and an unsupported suffix
opens nothing. -/
def print_meta_events (p : PathInfo) : List Ev :=
  if p.pexists = false then []
  else if p.suffix = ".db" || p.suffix = ".sqlite" || p.suffix = ".duckdb" then
    [.openH 0, .readData "_meta", .closeH 0]
  else []

/-- The fixed MSSQL → DuckDB type table of `load_mssql_to_duckdb`
(sql.py:745-772). -/
def sql_to_duckdb_type_map : List (String × String) :=
  [("bit", "BOOLEAN"),
   ("tinyint", "TINYINT"),
   ("smallint", "SMALLINT"),
   ("int", "INTEGER"),
   ("bigint", "BIGINT"),
   ("real", "REAL"),
   ("float", "DOUBLE"),
   ("decimal", "DECIMAL"),
   ("numeric", "DECIMAL"),
   ("money", "DECIMAL(19,4)"),
   ("smallmoney", "DECIMAL(10,4)"),
   ("char", "VARCHAR"),
   ("varchar", "VARCHAR"),
   ("nvarchar", "VARCHAR"),
   ("text", "VARCHAR"),
   ("ntext", "VARCHAR"),
   ("date", "DATE"),
   ("datetime", "TIMESTAMP"),
   ("datetime2", "TIMESTAMP"),
   ("smalldatetime", "TIMESTAMP"),
   ("time", "TIME"),
   ("uniqueidentifier", "UUID"),
   ("binary", "BLOB"),
   ("varbinary", "BLOB"),
   ("image", "BLOB")]

/-- `sql_to_duckdb_type_map.get(sql_type, 'VARCHAR')` (sql.py:830): look the
MSSQL type up in the fixed table, defaulting to VARCHAR. -/
def mapped_duckdb_type (sql_type : String) : String :=
  (sql_to_duckdb_type_map.lookup sql_type).getD "VARCHAR"

/-- The MSSQL character types that receive the ISNULL/REPLACE cleansing
(sql.py:861). -/
def char_sql_types : List String :=
  ["char", "varchar", "nvarchar", "text", "ntext"]

/-- The SELECT expression `load_mssql_to_duckdb` builds for one source column
of the bcp query (sql.py:855-866): character columns get NULL→'' and
CR/LF/TAB removal, every other column is selected directly. -/
def select_expr_for_bcp (col_name sql_type : String) : String :=
  if char_sql_types.contains sql_type then
    s!"REPLACE(REPLACE(REPLACE(ISNULL([{col_name}], ''), CHAR(13), ''), CHAR(10), ''), CHAR(9), '')"
  else
    s!"[{col_name}]"

/-- The NUL character removed by the CSV post-processing step. -/
def nullChar : Char := Char.ofNat 0

/-- One line of `line.replace('\0', '')` (sql.py:922). -/
def cleanse_line (line : List Char) : List Char :=
  line.filter (fun c => c ≠ nullChar)

/-- The streaming CSV post-processing (sql.py:917-925): every line of the
bcp output file is rewritten with its NUL characters removed. -/
def cleanse_csv (lines : List (List Char)) : List (List Char) :=
  lines.map cleanse_line

/-- The per-table steps of `load_mssql_to_duckdb` that touch the CSV file, in
source order (sql.py:889-936). -/
inductive CsvStep
  | bcp_export
  | cleanse_nulls
  | copy_into_duckdb
  deriving DecidableEq, Repr

/-- sql.py runs bcp (894), then removes NULs (919-925), then COPYs the file
into DuckDB (936). -/
def mssql_table_pipeline : List CsvStep :=
  [.bcp_export, .cleanse_nulls, .copy_into_duckdb]

/-- `batchsize = 10000` (sql.py:155). -/
def batchsize : Nat := 10000

/-- The fetch loop of `load_sql_to_sqlite` (sql.py:195-200): fetch up to
`batchsize` rows, append the batch (an empty batch appends nothing), stop
as soon as a fetch comes back empty.  The result is the list of batches in
the order they are appended to the target table. -/
def load_sql_to_sqlite_loop {α : Type} (rows : List α) : List (List α) :=
  if h : (rows.take batchsize).isEmpty then [rows.take batchsize]
  else rows.take batchsize :: load_sql_to_sqlite_loop (rows.drop batchsize)
termination_by rows.length
decreasing_by
  simp only [List.isEmpty_iff, List.take_eq_nil_iff] at h
  push_neg at h
  have hpos : 0 < rows.length := List.length_pos.mpr h.2
  simp only [List.length_drop]
  omega

/-- A caller-supplied metadata dictionary: insertion-ordered key/value
pairs. -/
abbrev MetaDict := List (String × String)

/-- A single-row table: column names and the one row of values. -/
structure MetaTable where
  cols : List String
  row : List String
  deriving DecidableEq, Repr

/-- `pd.DataFrame.from_dict(dict_meta, orient="index")` (sql.py:167): one row
per key, each holding the single value. -/
def from_dict_index (d : MetaDict) : List (String × List String) :=
  d.map (fun kv => (kv.1, [kv.2]))

/-- `.T` on the one-column frame above: columns are the former row labels,
the single row collects the values. -/
def transpose_single (t : List (String × List String)) : MetaTable :=
  ⟨t.map Prod.fst, t.map (fun kv => kv.2.headD "")⟩

/-- The `_meta` table `load_sql_to_sqlite` writes (sql.py:165-168), `none`
when no dictionary was supplied. -/
def load_sql_to_sqlite_meta (dict_meta : Option MetaDict) : Option MetaTable :=
  dict_meta.map (fun d => transpose_single (from_dict_index d))

/-- Column list of the `CREATE TABLE _meta` statement in
`load_mssql_to_duckdb` (sql.py:697-700): the dictionary keys. -/
def duckdb_meta_create_cols (d : MetaDict) : List String :=
  d.map Prod.fst

/-- The single row inserted into `_meta` by `load_mssql_to_duckdb`
(sql.py:706-711): `str(v)` of each dictionary value (identity on the
string values modelled here). -/
def duckdb_meta_insert_row (d : MetaDict) : List String :=
  d.map Prod.snd

/-- The `_meta` table `load_mssql_to_duckdb` writes (sql.py:692-711), `none`
when no dictionary was supplied. -/
def load_mssql_to_duckdb_meta (dict_meta : Option MetaDict) : Option MetaTable :=
  dict_meta.map (fun d => ⟨duckdb_meta_create_cols d, duckdb_meta_insert_row d⟩)

/-- What the opening guard of an export function does: what it printed,
the filesystem afterwards (a list of existing paths), and whether the
function went on to do any work. -/
structure GuardOutcome where
  printed : List String
  fs_after : List String
  proceeded : Bool
  deriving DecidableEq, Repr

/-- The existence guard of `load_sql_to_sqlite` (sql.py:149-154): if
`file_db` exists the function prints and returns with the filesystem
untouched; otherwise `sqlite3.connect(file_db)` creates the file and the
load proceeds. -/
def load_sql_to_sqlite_guard (fs : List String) (file_db : String) : GuardOutcome :=
  if fs.contains file_db then
    ⟨["❌ " ++ file_db ++ " already exists. exiting.."], fs, false⟩
  else
    ⟨[], fs ++ [file_db], true⟩

/-- The existence guard of `load_mssql_to_duckdb` (sql.py:678-684): same
shape, with the relative timestamp `ts` prefixed to the message, and the
DuckDB file created by `ddb.connect` when the load proceeds. -/
def load_mssql_to_duckdb_guard (fs : List String) (file_db ts : String) : GuardOutcome :=
  if fs.contains file_db then
    ⟨[ts ++ " ❌ " ++ file_db ++ " already exists. Exiting."], fs, false⟩
  else
    ⟨[], fs ++ [file_db], true⟩

/-- `recipient_key_id_list : str | list[str]` in `encrypt` (pgp.py:113). -/
inductive StrOrList
  | one (s : String)
  | many (l : List String)
  deriving DecidableEq, Repr

/-- pgp.py:135-136: a single key id is wrapped into a one-element list. -/
def to_recipient_list : StrOrList → List String
  | .one s => [s]
  | .many l => l

/-- The gpg call `encrypt` ends up making (pgp.py:138-150). -/
inductive EncryptCall
  | file (path : String) (recipients : List String)
  | data (message : String) (recipients : List String)
  deriving DecidableEq, Repr

/-- Outcome of `encrypt` (pgp.py:113-154): console output and the gpg call
made, `none` when the function returned `None` without calling gpg.  The
success-path print (pgp.py:153) is modelled without the Python list repr
of the recipients. -/
structure EncryptOutcome where
  printed : List String
  call : Option EncryptCall
  deriving DecidableEq, Repr

/-- `_get_success_icon` (pgp.py:7-8). -/
def get_success_icon (success : Bool) : String :=
  if success then "✅" else "❌"

/-- Embedding of `encrypt` (pgp.py:113-154).  `result_ok` is the `.ok` field
of the gpg result object. -/
def encrypt (recipient_key_id_list : StrOrList)
    (message message_file_path : Option String) (result_ok : Bool) : EncryptOutcome :=
  if truthy message = false && truthy message_file_path = false then
    ⟨["❌ no message or message file to encrypt"], none⟩
  else
    let recipients := to_recipient_list recipient_key_id_list
    if truthy message_file_path then
      ⟨[get_success_icon result_ok ++ " encrypted message for recipient(s)"],
       some (.file (pyStr message_file_path) recipients)⟩
    else
      ⟨[get_success_icon result_ok ++ " encrypted message for recipient(s)"],
       some (.data (pyStr message) recipients)⟩

/-- The world `get_infisical_secrets` runs in: whether `load_dotenv(env_path)`
reports success, the process environment afterwards, and the secret value
Infisical serves for each secret name. -/
structure DotEnvWorld where
  env_file_loads : Bool
  environ : String → Option String
  secret_value : String → String

/-- Embedding of `get_infisical_secrets` (sec.py:14-68): console output plus
either a raised exception or the returned value.  `os.environ["K"]`
(sec.py:38-40) raises `KeyError` when `K` is absent, so the
`if not all(...)` check (sec.py:42) is reached only when all three
variables are present (possibly empty). -/
def get_infisical_secrets (w : DotEnvWorld) (secrets : List String) :
    List String × Except PyError (Option (List String)) :=
  if w.env_file_loads = false then
    (["❌ missing .env file"], .ok none)
  else
    match w.environ "INF_CLIENT" with
    | none => ([], .error (.keyError "INF_CLIENT"))
    | some client_id =>
      match w.environ "INF_SECRET" with
      | none => ([], .error (.keyError "INF_SECRET"))
      | some client_secret =>
        match w.environ "INF_PROJECT" with
        | none => ([], .error (.keyError "INF_PROJECT"))
        | some project_id =>
          if client_id.isEmpty || client_secret.isEmpty || project_id.isEmpty then
            (["❌ missing items in .env file"], .ok none)
          else
            ([], .ok (some (secrets.map w.secret_value)))

/-- A cell of a dataframe. -/
inductive Cell
  | str (s : String)
  | num (n : Int)
  deriving DecidableEq, Repr

/-- A dataframe: column names and rows of cells. -/
structure Frame where
  cols : List String
  rows : List (List Cell)
  deriving DecidableEq, Repr

/-- `df_["created_at"] = <scalar>` (sql.py:496): a new last column holding
the same value in every row. -/
def Frame.addColumn (f : Frame) (name : String) (v : Cell) : Frame :=
  ⟨f.cols ++ [name], f.rows.map (fun r => r ++ [v])⟩

/-- `df_.insert(0, "id", range(1, len(df_) + 1))` (sql.py:500): a new first
column numbering the rows from 1. -/
def Frame.insertIdColumn (f : Frame) : Frame :=
  ⟨"id" :: f.cols, f.rows.enum.map (fun p => Cell.num (Int.ofNat p.1 + 1) :: p.2)⟩

/-- Embedding of the dataframe handling of `save_to_mssql` (sql.py:443-508).
Python objects live on a heap (a list of frames, addressed by index);
the caller's frame sits at index `i`.  `df_ = df.copy()` (sql.py:470)
allocates a fresh frame, all column additions are applied to that copy,
and the copy is what `to_sql` writes.  Returns the heap after the call
and the address of the written frame.  (Connection handling, the
interactive confirmation and prints are independent of the frames and
are elided.)

`save_to_mssql_transform` is the column work applied to the copy
(sql.py:494-500); `save_to_mssql` is the heap step: allocate the copy,
transform it, leave every pre-existing object untouched. -/
def save_to_mssql_transform (df : Frame) (add_id add_timestamp : Bool)
    (now : String) : Frame :=
  let d1 := if add_timestamp && !(df.cols.contains "created_at")
            then df.addColumn "created_at" (.str now) else df
  if add_id && !(d1.cols.contains "id") then d1.insertIdColumn else d1

def save_to_mssql (heap : List Frame) (i : Nat)
    (add_id add_timestamp : Bool) (now : String) : List Frame × Nat :=
  (heap ++ [save_to_mssql_transform (heap.getD i ⟨[], []⟩) add_id add_timestamp now],
   heap.length)

/-- Resource events of `unpack_files_to_duckdb` (sql.py:277-343): when no
connection is supplied one is created (handle 0) and closed at the end
(sql.py:340-341); a caller-supplied connection is used but never opened
or closed here.  `files` are the basenames read (skipped when
`debug`). -/
def unpack_files_to_duckdb_events (con_given : Bool) (files : List String)
    (debug : Bool) : List Ev :=
  (if con_given then [] else [.openH 0]) ++
  (if debug then [] else files.map (fun f => .readData f)) ++
  (if con_given then [] else [.closeH 0])

/-- Resource events of `load_sqlite_to_duckdb` (sql.py:561-601): the SQLite
connection (handle 0) and the DuckDB connection (handle 1) are opened up
front and both closed in the `finally` block. -/
def load_sqlite_to_duckdb_events (tables : List String) : List Ev :=
  [.openH 0, .openH 1] ++ tables.map (fun t => .readData t) ++ [.closeH 0, .closeH 1]

/-- Resource events of `load_sql_to_sqlite` (sql.py:119-203): nothing is
opened when the target file already exists; otherwise the SQLite
connection (handle 0) is opened, the tables are read, and the connection
is closed before returning (sql.py:202). -/
def load_sql_to_sqlite_events (file_db_exists : Bool) (tables : List String) : List Ev :=
  if file_db_exists then []
  else [.openH 0] ++ tables.map (fun t => .readData t) ++ [.closeH 0]

/-- One entry of the gpg keyring as `find_key` reads it (pgp.py:221-223). -/
structure KeyEntry where
  keyid : String
  fingerprint : String
  deriving DecidableEq, Repr

/-- Outcome of `find_key` (pgp.py:203-236): console output (success prints
modelled without the Python list repr), whether `gpg.list_keys` was
called, and the returned value. -/
structure FindKeyOutcome where
  printed : List String
  consulted_keyring : Bool
  result : Option (List String)
  deriving DecidableEq, Repr

/-- `needle` is a leading segment of `hay` (character lists). -/
def starts_with : List Char → List Char → Bool
  | [], _ => true
  | _ :: _, [] => false
  | n :: ns, h :: hs => (n = h) && starts_with ns hs

/-- Python's substring test `needle in hay` on character lists. -/
def contains_sub (needle : List Char) : List Char → Bool
  | [] => starts_with needle []
  | h :: hs => starts_with needle (h :: hs) || contains_sub needle hs

/-- Python's `needle in hay` on strings. -/
def py_in (needle hay : String) : Bool :=
  contains_sub needle.data hay.data

/-- Embedding of `find_key` (pgp.py:203-236): a `key_id` shorter than 8
characters is rejected up front (with a message stating a minimum of 6);
otherwise the keyring is listed and searched by key id, then by
fingerprint. -/
def find_key (keyring : List KeyEntry) (key_id : String) : FindKeyOutcome :=
  if key_id.length < 8 then
    ⟨["❌ key_id must be at least 6 characters long"], false, none⟩
  else
    let key_ids := keyring.map (fun k => k.keyid)
    let key_prints := keyring.map (fun k => k.fingerprint)
    let key_ids_match := key_ids.filter (fun item => py_in key_id item)
    let key_prints_match := key_prints.filter (fun item => py_in key_id item)
    if key_ids_match.isEmpty = false then
      ⟨["✅ key found"], true, some key_ids_match⟩
    else if key_prints_match.isEmpty = false then
      ⟨["✅ key found"], true, some key_prints_match⟩
    else
      ⟨["❌ key not found"], true, none⟩

/-! ## Theorems -/

/-- `toString` on a string is the string itself (used to normalise the
interpolated connection strings). -/
theorem toString_self (s : String) : toString s = s := rfl

/-- C1: in `load_mssql_to_duckdb`, every source column whose MSSQL type is
one of char/varchar/nvarchar/text/ntext gets a bulk-copy SELECT expression
replacing NULL with `''` and stripping CHAR(13), CHAR(10) and CHAR(9);
every non-character column is selected unchanged; the fixed type table
defaults unmapped MSSQL types to VARCHAR; and the exported CSV is
post-processed to contain no NUL characters before the DuckDB COPY step. -/
theorem C1_bcp_cleansing_and_types (col_name sql_type : String)
    (lines : List (List Char)) :
    (char_sql_types.contains sql_type = true →
      select_expr_for_bcp col_name sql_type =
        "REPLACE(REPLACE(REPLACE(ISNULL([" ++ col_name ++
          "], ''), CHAR(13), ''), CHAR(10), ''), CHAR(9), '')")
    ∧ (char_sql_types.contains sql_type = false →
      select_expr_for_bcp col_name sql_type = "[" ++ col_name ++ "]")
    ∧ (sql_to_duckdb_type_map.lookup sql_type = none →
      mapped_duckdb_type sql_type = "VARCHAR")
    ∧ (∀ l ∈ cleanse_csv lines, nullChar ∉ l)
    ∧ mssql_table_pipeline.indexOf CsvStep.cleanse_nulls <
        mssql_table_pipeline.indexOf CsvStep.copy_into_duckdb := by
  refine ⟨?_, ?_, ?_, ?_, by decide⟩
  · intro hc
    replace hc : sql_type ∈ char_sql_types := by simpa using hc
    simp [select_expr_for_bcp, hc, toString_self, String.append_assoc]
  · intro hc
    replace hc : sql_type ∉ char_sql_types := by simpa using hc
    simp [select_expr_for_bcp, hc, toString_self, String.append_assoc]
  · intro hl
    simp [mapped_duckdb_type, hl]
  · intro l hl
    simp only [cleanse_csv, List.mem_map] at hl
    obtain ⟨l0, _, rfl⟩ := hl
    simp [cleanse_line]

/-- Witness for C1 at concrete inputs. -/
theorem C1_witness :
    select_expr_for_bcp "Name" "nvarchar" =
      "REPLACE(REPLACE(REPLACE(ISNULL([Name], ''), CHAR(13), ''), CHAR(10), ''), CHAR(9), '')"
    ∧ select_expr_for_bcp "Age" "int" = "[Age]"
    ∧ mapped_duckdb_type "xml" = "VARCHAR"
    ∧ nullChar ∉ cleanse_line ['a', Char.ofNat 0, 'b'] := by
  refine ⟨(C1_bcp_cleansing_and_types "Name" "nvarchar" []).1 (by decide),
          (C1_bcp_cleansing_and_types "Age" "int" []).2.1 (by decide),
          (C1_bcp_cleansing_and_types "x" "xml" []).2.2.1 (by decide),
          ?_⟩
  exact (C1_bcp_cleansing_and_types "x" "xml" [['a', Char.ofNat 0, 'b']]).2.2.2.1
    (cleanse_line ['a', Char.ofNat 0, 'b']) (by simp [cleanse_csv])

/-- C4: for non-empty host and db, `connect_sql` composes the engine URL per
dbms — mssql, sqlite (ignoring user/password/host), postgres — and any
other dbms value opens no connection and returns None. -/
theorem C4_connect_sql_urls (env : Env) (db host user pw : String)
    (e de : Bool) (ce : Option String)
    (hh : host ≠ "") (hd : db ≠ "") :
    (connect_sql env db host user pw false "mssql" e de ce).url =
      some ("mssql://" ++ user ++ ":" ++ pw ++ "@" ++ host ++ "/" ++ db ++
        "?driver=ODBC Driver 17 for SQL Server")
    ∧ (connect_sql env db host user pw false "sqlite" e de ce).url =
      some ("sqlite:///" ++ db)
    ∧ (connect_sql env db host user pw false "postgres" e de ce).url =
      some ("postgresql+psycopg2://" ++ user ++ ":" ++ pw ++ "@" ++ host ++ "/" ++ db)
    ∧ (∀ dbms, dbms ≠ "mssql" → dbms ≠ "sqlite" → dbms ≠ "postgres" →
        (connect_sql env db host user pw false dbms e de ce).result = .ok none
        ∧ (connect_sql env db host user pw false dbms e de ce).events = []) := by
  have hh' : host.isEmpty = false := by
    cases hE : host.isEmpty
    · rfl
    · exact absurd ((String.isEmpty_iff host).mp hE) hh
  have hd' : db.isEmpty = false := by
    cases hE : db.isEmpty
    · rfl
    · exact absurd ((String.isEmpty_iff db).mp hE) hd
  refine ⟨?_, ?_, ?_, fun dbms h1 h2 h3 => ?_⟩ <;>
  · cases ce <;>
      simp_all [connect_sql, resolve, truthy, pyStr, toString_self,
        String.append_empty, String.append_assoc]

/-- Witness for C4 at concrete inputs. -/
theorem C4_witness :
    (connect_sql (fun _ => none) "mydb" "srv" "u" "p" false "mssql" false false
      none).url = some "mssql://u:p@srv/mydb?driver=ODBC Driver 17 for SQL Server"
    ∧ (connect_sql (fun _ => none) "mydb" "srv" "u" "p" false "sqlite" false false
      none).url = some "sqlite:///mydb"
    ∧ (connect_sql (fun _ => none) "mydb" "srv" "u" "p" false "oracle" false false
      none).result = .ok none := by
  have h := C4_connect_sql_urls (fun _ => none) "mydb" "srv" "u" "p" false false
    none (by decide) (by decide)
  exact ⟨h.1, h.2.1, (h.2.2.2 "oracle" (by decide) (by decide) (by decide)).1⟩

/-- C9: when the target database file already exists, `load_sql_to_sqlite`
and `load_mssql_to_duckdb` print a failure indicator and return at once,
leaving the filesystem untouched. -/
theorem C9_existing_target_untouched (fs : List String) (file_db ts : String)
    (h : fs.contains file_db = true) :
    load_sql_to_sqlite_guard fs file_db =
      ⟨["❌ " ++ file_db ++ " already exists. exiting.."], fs, false⟩
    ∧ load_mssql_to_duckdb_guard fs file_db ts =
      ⟨[ts ++ " ❌ " ++ file_db ++ " already exists. Exiting."], fs, false⟩ := by
  constructor <;>
    simp_all [load_sql_to_sqlite_guard, load_mssql_to_duckdb_guard]

/-- Witness for C9 at a concrete filesystem. -/
theorem C9_witness :
    load_sql_to_sqlite_guard ["out.db"] "out.db" =
      ⟨["❌ out.db already exists. exiting.."], ["out.db"], false⟩
    ∧ load_mssql_to_duckdb_guard ["out.duckdb"] "out.duckdb" "[00:00:00]" =
      ⟨["[00:00:00] ❌ out.duckdb already exists. Exiting."], ["out.duckdb"], false⟩ := by
  exact ⟨(C9_existing_target_untouched ["out.db"] "out.db" "t" (by decide)).1,
         (C9_existing_target_untouched ["out.duckdb"] "out.duckdb" "[00:00:00]"
           (by decide)).2⟩

/-- C10: `find_key` rejects every key_id shorter than 8 characters — with an
error message that states a minimum of 6 — returning None without
consulting the keyring; in particular lengths 6 and 7 are rejected. -/
theorem C10_find_key_short_id (keyring : List KeyEntry) (key_id : String)
    (h : key_id.length < 8) :
    find_key keyring key_id =
      ⟨["❌ key_id must be at least 6 characters long"], false, none⟩ := by
  simp [find_key, h]

/-- Witness for C10: a 7-character key id (and a 6-character one) against a
non-empty keyring. -/
theorem C10_witness :
    find_key [⟨"0123456789ABCDEF", "FP0123456789ABCDEF"⟩] "0123456" =
      ⟨["❌ key_id must be at least 6 characters long"], false, none⟩
    ∧ find_key [⟨"0123456789ABCDEF", "FP0123456789ABCDEF"⟩] "012345" =
      ⟨["❌ key_id must be at least 6 characters long"], false, none⟩ := by
  exact ⟨C10_find_key_short_id _ "0123456" (by decide),
         C10_find_key_short_id _ "012345" (by decide)⟩

/-- C3: `connect_sql` and `load_from_mssql` raise `ValueError` whenever the
host or db is empty (or unresolved) after environment resolution, and
`print_meta` raises `FileNotFoundError` for a missing path and
`ValueError` for an unsupported suffix. -/
theorem C3_required_params_raise
    (env : Env) (db host user pw : String) (use_env : Bool) (dbms : String)
    (e de : Bool) (ce : Option String) (p : PathInfo)
    (hmiss : truthy (resolve env use_env host) = false
      ∨ truthy (resolve env use_env db) = false) :
    (connect_sql env db host user pw use_env dbms e de ce).result =
      .error (.valueError "❌ Both host and db must be provided either through environment variables or directly as arguments.")
    ∧ load_from_mssql env host db use_env =
      .error (.valueError "❌ Both host and db must be provided either through environment variables or directly as arguments.")
    ∧ (p.pexists = false →
        print_meta p = .error (.fileNotFoundError ("File not found: " ++ p.path)))
    ∧ (p.pexists = true → p.suffix ≠ ".db" → p.suffix ≠ ".sqlite" →
        p.suffix ≠ ".duckdb" →
        print_meta p = .error (.valueError ("Unsupported file type: " ++ p.path))) := by
  have hcond : (truthy (resolve env use_env host) = false
      || truthy (resolve env use_env db) = false) = true := by
    rcases hmiss with h | h <;> simp [h]
  refine ⟨?_, ?_, ?_, ?_⟩
  · simp only [connect_sql]
    rw [if_pos hcond]
  · simp only [load_from_mssql]
    rw [if_pos hcond]
  · intro hp
    simp [print_meta, hp]
  · intro hp h1 h2 h3
    simp [print_meta, hp, h1, h2, h3]

/-- Witness for C3: unresolved environment variables for `connect_sql` and
`load_from_mssql`; a missing path and an unsupported suffix for
`print_meta`. -/
theorem C3_witness :
    (connect_sql (fun _ => none) "SQL_DB" "SQL_HOST" "" "" true "mssql" false
      false none).result =
      .error (.valueError "❌ Both host and db must be provided either through environment variables or directly as arguments.")
    ∧ load_from_mssql (fun _ => none) "SQL_HOST" "SQL_DB" true =
      .error (.valueError "❌ Both host and db must be provided either through environment variables or directly as arguments.")
    ∧ print_meta ⟨"gone.db", false, ".db"⟩ =
      .error (.fileNotFoundError "File not found: gone.db")
    ∧ print_meta ⟨"data.parquet", true, ".parquet"⟩ =
      .error (.valueError "Unsupported file type: data.parquet") := by
  refine ⟨?_, ?_, ?_, ?_⟩
  · exact (C3_required_params_raise (fun _ => none) "SQL_DB" "SQL_HOST" "" ""
      true "mssql" false false none ⟨"x", true, ".db"⟩ (Or.inl rfl)).1
  · exact (C3_required_params_raise (fun _ => none) "SQL_DB" "SQL_HOST" "" ""
      true "mssql" false false none ⟨"x", true, ".db"⟩ (Or.inl rfl)).2.1
  · exact (C3_required_params_raise (fun _ => none) "SQL_DB" "SQL_HOST" "" ""
      true "mssql" false false none ⟨"gone.db", false, ".db"⟩
      (Or.inl rfl)).2.2.1 rfl
  · exact (C3_required_params_raise (fun _ => none) "SQL_DB" "SQL_HOST" "" ""
      true "mssql" false false none ⟨"data.parquet", true, ".parquet"⟩
      (Or.inl rfl)).2.2.2 rfl (by decide) (by decide) (by decide)

/-- C6: when a metadata dictionary is supplied, `load_sql_to_sqlite` and
`load_mssql_to_duckdb` write a `_meta` table whose columns are exactly
the dictionary keys and whose single row holds the corresponding values;
with no dictionary, no `_meta` table is written. -/
theorem C6_meta_table (d : MetaDict) :
    load_sql_to_sqlite_meta (some d) = some ⟨d.map Prod.fst, d.map Prod.snd⟩
    ∧ load_mssql_to_duckdb_meta (some d) = some ⟨d.map Prod.fst, d.map Prod.snd⟩
    ∧ load_sql_to_sqlite_meta none = none
    ∧ load_mssql_to_duckdb_meta none = none := by
  refine ⟨?_, rfl, rfl, rfl⟩
  simp [load_sql_to_sqlite_meta, transpose_single, from_dict_index,
    List.map_map, Function.comp]

/-- C2 counterexample: with a loadable `.env` file whose `INF_CLIENT`
variable is absent from the environment, `get_infisical_secrets` raises
`KeyError` and prints nothing — it does not print a failure indicator and
return `None` as the claim states. -/
theorem C2_counterexample :
    get_infisical_secrets ⟨true, fun _ => none, fun _ => ""⟩ ["DB_PW"] =
      ([], .error (.keyError "INF_CLIENT")) := by
  rfl

/-- C2 (amended): `encrypt` with neither a message nor a message file,
`get_infisical_secrets` with a missing `.env` file or with the variables
present but empty, and `connect_sql` when the underlying connect call
fails, each print a failure indicator and return `None`; but
`get_infisical_secrets` raises `KeyError` when a required variable is
entirely absent from the environment. -/
theorem C2_print_and_return_none
    (r : StrOrList) (ok : Bool) (w : DotEnvWorld) (secrets : List String)
    (env : Env) (db host user pw msg : String) (e de : Bool)
    (cid csec pid : String) :
    encrypt r none none ok =
      ⟨["❌ no message or message file to encrypt"], none⟩
    ∧ (w.env_file_loads = false →
        get_infisical_secrets w secrets = (["❌ missing .env file"], .ok none))
    ∧ (w.env_file_loads = true →
        w.environ "INF_CLIENT" = some cid →
        w.environ "INF_SECRET" = some csec →
        w.environ "INF_PROJECT" = some pid →
        (cid.isEmpty || csec.isEmpty || pid.isEmpty) = true →
        get_infisical_secrets w secrets =
          (["❌ missing items in .env file"], .ok none))
    ∧ (w.env_file_loads = true → w.environ "INF_CLIENT" = none →
        (get_infisical_secrets w secrets).2 = .error (.keyError "INF_CLIENT"))
    ∧ (host ≠ "" → db ≠ "" →
        (connect_sql env db host user pw false "mssql" e de (some msg)).result
          = .ok none
        ∧ msg ∈ (connect_sql env db host user pw false "mssql" e de
            (some msg)).printed) := by
  refine ⟨rfl, ?_, ?_, ?_, ?_⟩
  · intro h
    simp [get_infisical_secrets, h]
  · intro h hc hs hp hempty
    simp [get_infisical_secrets, h, hc, hs, hp, hempty]
  · intro h hc
    simp [get_infisical_secrets, h, hc]
  · intro hh hd
    have hh' : host.isEmpty = false := by
      cases hE : host.isEmpty
      · rfl
      · exact absurd ((String.isEmpty_iff host).mp hE) hh
    have hd' : db.isEmpty = false := by
      cases hE : db.isEmpty
      · rfl
      · exact absurd ((String.isEmpty_iff db).mp hE) hd
    constructor <;> simp [connect_sql, resolve, truthy, pyStr, hh', hd']

/-- Witness for C2 (amended) at concrete inputs. -/
theorem C2_witness :
    encrypt (.one "ABCD1234") none none false =
      ⟨["❌ no message or message file to encrypt"], none⟩
    ∧ get_infisical_secrets ⟨false, fun _ => none, fun _ => ""⟩ ["S"] =
      (["❌ missing .env file"], .ok none)
    ∧ get_infisical_secrets ⟨true, fun _ => some "", fun _ => ""⟩ ["S"] =
      (["❌ missing items in .env file"], .ok none)
    ∧ (get_infisical_secrets ⟨true, fun _ => none, fun _ => ""⟩ ["S"]).2 =
      .error (.keyError "INF_CLIENT")
    ∧ (connect_sql (fun _ => none) "mydb" "srv" "u" "p" false "mssql" false
        false (some "timeout expired")).result = .ok none := by
  refine ⟨?_, ?_, ?_, ?_, ?_⟩
  · exact (C2_print_and_return_none (.one "ABCD1234") false
      ⟨false, fun _ => none, fun _ => ""⟩ ["S"] (fun _ => none) "" "" "" "" ""
      false false "" "" "").1
  · exact (C2_print_and_return_none (.one "k") false
      ⟨false, fun _ => none, fun _ => ""⟩ ["S"] (fun _ => none) "" "" "" "" ""
      false false "" "" "").2.1 rfl
  · exact (C2_print_and_return_none (.one "k") false
      ⟨true, fun _ => some "", fun _ => ""⟩ ["S"] (fun _ => none) "" "" "" "" ""
      false false "" "" "").2.2.1 rfl rfl rfl rfl (by decide)
  · exact (C2_print_and_return_none (.one "k") false
      ⟨true, fun _ => none, fun _ => ""⟩ ["S"] (fun _ => none) "" "" "" "" ""
      false false "" "" "").2.2.2.1 rfl rfl
  · exact ((C2_print_and_return_none (.one "k") false
      ⟨true, fun _ => none, fun _ => ""⟩ ["S"] (fun _ => none) "mydb" "srv" "u"
      "p" "timeout expired" false false "" "" "").2.2.2.2 (by decide)
      (by decide)).1

/-- C5: the fetch loop of `load_sql_to_sqlite` appends batches of at most
10,000 rows, terminates exactly when a fetch returns an empty batch (the
final batch is the empty one, every earlier batch is non-empty), and the
appended batches concatenate to exactly the source result set, so every
source row is written once. -/
theorem C5_fetch_loop (α : Type) (rows : List α) :
    (load_sql_to_sqlite_loop rows).flatten = rows
    ∧ (∀ b ∈ load_sql_to_sqlite_loop rows, b.length ≤ batchsize)
    ∧ (load_sql_to_sqlite_loop rows).getLast? = some []
    ∧ (∀ b ∈ (load_sql_to_sqlite_loop rows).dropLast, b ≠ []) := by
  induction rows using load_sql_to_sqlite_loop.induct with
  | case1 rows h =>
    have hnil : rows.take batchsize = [] := by simpa [List.isEmpty_iff] using h
    have hrows : rows = [] := by
      rcases (List.take_eq_nil_iff.mp hnil) with h0 | h0
      · exact absurd h0 (by decide)
      · exact h0
    rw [load_sql_to_sqlite_loop, dif_pos h]
    subst hrows
    simp
  | case2 rows h ih =>
    obtain ⟨ihj, ihlen, ihlast, ihne⟩ := ih
    rw [load_sql_to_sqlite_loop, dif_neg h]
    have hne : rows.take batchsize ≠ [] := by
      simpa [List.isEmpty_iff] using h
    obtain ⟨c, cs, hcons⟩ :
        ∃ c cs, load_sql_to_sqlite_loop (rows.drop batchsize) = c :: cs := by
      cases hL : load_sql_to_sqlite_loop (rows.drop batchsize) with
      | nil => rw [hL] at ihlast; simp at ihlast
      | cons c cs => exact ⟨c, cs, rfl⟩
    refine ⟨?_, ?_, ?_, ?_⟩
    · rw [List.flatten_cons, ihj, List.take_append_drop]
    · intro b hb
      rcases List.mem_cons.mp hb with rfl | hb
      · exact List.length_take_le batchsize rows
      · exact ihlen b hb
    · rw [hcons, List.getLast?_cons_cons, ← hcons, ihlast]
    · intro b hb
      rw [hcons, List.dropLast_cons₂] at hb
      rcases List.mem_cons.mp hb with rfl | hb
      · exact hne
      · exact ihne b (by rw [hcons]; exact hb)

/-- Auxiliary: reading the freshly appended frame back off the heap. -/
theorem getD_append_self (l : List Frame) (x : Frame) :
    (l ++ [x]).getD l.length ⟨[], []⟩ = x := by
  induction l with
  | nil => rfl
  | cons a t ih => exact ih

/-- Auxiliary: an enumeration-indexed map that ignores the index is a plain
map. -/
theorem enum_map_discard {α β : Type} (l : List α) (f : α → β) :
    l.enum.map (fun p => f p.2) = l.map f := by
  rw [show (fun p : Nat × α => f p.2) = f ∘ Prod.snd from rfl, ← List.map_map,
    List.enum_map_snd]

/-- C7: `save_to_mssql` applies its modifications only to an internal copy —
every pre-existing heap object, the caller's DataFrame included, is
unchanged — and the frame written to the sink is the input with exactly
the optional leading `id` column (numbered from 1) and trailing
`created_at` column added, the rest passed through unchanged. -/
theorem C7_save_to_mssql_frames (heap : List Frame) (i : Nat)
    (add_id add_timestamp : Bool) (now : String)
    (hid : "id" ∉ (heap.getD i ⟨[], []⟩).cols)
    (hts : "created_at" ∉ (heap.getD i ⟨[], []⟩).cols) :
    (save_to_mssql heap i add_id add_timestamp now).1.take heap.length = heap
    ∧ ((save_to_mssql heap i add_id add_timestamp now).1.getD
        (save_to_mssql heap i add_id add_timestamp now).2 ⟨[], []⟩).cols =
      (if add_id then ["id"] else []) ++ (heap.getD i ⟨[], []⟩).cols ++
        (if add_timestamp then ["created_at"] else [])
    ∧ ((save_to_mssql heap i add_id add_timestamp now).1.getD
        (save_to_mssql heap i add_id add_timestamp now).2 ⟨[], []⟩).rows =
      (heap.getD i ⟨[], []⟩).rows.enum.map (fun p =>
        (if add_id then [Cell.num (Int.ofNat p.1 + 1)] else []) ++ p.2 ++
          (if add_timestamp then [Cell.str now] else [])) := by
  have key : ∀ df : Frame, "id" ∉ df.cols → "created_at" ∉ df.cols →
      (save_to_mssql_transform df add_id add_timestamp now).cols =
        (if add_id then ["id"] else []) ++ df.cols ++
          (if add_timestamp then ["created_at"] else [])
      ∧ (save_to_mssql_transform df add_id add_timestamp now).rows =
        df.rows.enum.map (fun p =>
          (if add_id then [Cell.num (Int.ofNat p.1 + 1)] else []) ++ p.2 ++
            (if add_timestamp then [Cell.str now] else [])) := by
    intro df hdfid hdfts
    cases add_id <;> cases add_timestamp <;>
      simp [save_to_mssql_transform, Frame.addColumn, Frame.insertIdColumn,
        hdfid, hdfts, List.enum_map, List.map_map, Function.comp, Prod.map,
        enum_map_discard] <;>
      exact (enum_map_discard df.rows (fun r => r ++ [Cell.str now])).symm
  obtain ⟨hcols, hrows⟩ := key (heap.getD i ⟨[], []⟩) hid hts
  refine ⟨List.take_left heap _, ?_, ?_⟩
  · rw [show (save_to_mssql heap i add_id add_timestamp now).1.getD
        (save_to_mssql heap i add_id add_timestamp now).2 ⟨[], []⟩ =
        save_to_mssql_transform (heap.getD i ⟨[], []⟩) add_id add_timestamp now
      from getD_append_self heap _]
    exact hcols
  · rw [show (save_to_mssql heap i add_id add_timestamp now).1.getD
        (save_to_mssql heap i add_id add_timestamp now).2 ⟨[], []⟩ =
        save_to_mssql_transform (heap.getD i ⟨[], []⟩) add_id add_timestamp now
      from getD_append_self heap _]
    exact hrows

/-- Witness for C7 at a concrete one-frame heap with both flags set. -/
theorem C7_witness :
    (save_to_mssql [⟨["a"], [[Cell.str "x"], [Cell.str "y"]]⟩] 0 true true
      "2024-01-01 00:00:00").1.take 1 = [⟨["a"], [[Cell.str "x"], [Cell.str "y"]]⟩]
    ∧ ((save_to_mssql [⟨["a"], [[Cell.str "x"], [Cell.str "y"]]⟩] 0 true true
        "2024-01-01 00:00:00").1.getD
        (save_to_mssql [⟨["a"], [[Cell.str "x"], [Cell.str "y"]]⟩] 0 true true
          "2024-01-01 00:00:00").2 ⟨[], []⟩).cols = ["id", "a", "created_at"]
    ∧ ((save_to_mssql [⟨["a"], [[Cell.str "x"], [Cell.str "y"]]⟩] 0 true true
        "2024-01-01 00:00:00").1.getD
        (save_to_mssql [⟨["a"], [[Cell.str "x"], [Cell.str "y"]]⟩] 0 true true
          "2024-01-01 00:00:00").2 ⟨[], []⟩).rows =
      [[Cell.num 1, Cell.str "x", Cell.str "2024-01-01 00:00:00"],
       [Cell.num 2, Cell.str "y", Cell.str "2024-01-01 00:00:00"]] := by
  have h := C7_save_to_mssql_frames [⟨["a"], [[Cell.str "x"], [Cell.str "y"]]⟩]
    0 true true "2024-01-01 00:00:00" (by decide) (by decide)
  exact ⟨h.1, by rw [h.2.1]; rfl, by rw [h.2.2]; rfl⟩

/-- Auxiliary: data reads open no handles. -/
theorem opensOf_readData (ts : List String) :
    opensOf (ts.map (fun t => Ev.readData t)) = [] := by
  induction ts with
  | nil => rfl
  | cons a l ih => simpa [opensOf, List.filterMap_cons] using ih

/-- Auxiliary: data reads close no handles. -/
theorem closesOf_readData (ts : List String) :
    closesOf (ts.map (fun t => Ev.readData t)) = [] := by
  induction ts with
  | nil => rfl
  | cons a l ih => simpa [closesOf, List.filterMap_cons] using ih

/-- C8 counterexample: `connect_sql` does not close the handle it opens —
its whole purpose is to return an open connection to the caller — so the
claim that every handle a function opens is closed before that function
returns fails on it. -/
theorem C8_counterexample :
    allClosed (connect_sql (fun _ => none) "mydb" "srv" "u" "p" false "mssql"
      false false none).events = false
    ∧ (connect_sql (fun _ => none) "mydb" "srv" "u" "p" false "mssql"
      false false none).result = .ok (some 0) := by
  exact ⟨rfl, rfl⟩

/-- C8 (amended): functions whose handles are internal close them before
returning — `load_sqlite_to_duckdb` (both its connections),
`load_sql_to_sqlite`, `print_meta`, and `unpack_files_to_duckdb` when it
created its own connection; `unpack_files_to_duckdb` never opens or
closes a caller-supplied connection; `connect_sql`, by design, returns
its connection to the caller still open. -/
theorem C8_handles_scoped (tables files : List String) (dbg fdb : Bool)
    (p : PathInfo) (env : Env) (db host user pw : String) (e de : Bool)
    (hh : host ≠ "") (hd : db ≠ "") :
    allClosed (load_sqlite_to_duckdb_events tables) = true
    ∧ allClosed (load_sql_to_sqlite_events fdb tables) = true
    ∧ allClosed (print_meta_events p) = true
    ∧ allClosed (unpack_files_to_duckdb_events false files dbg) = true
    ∧ opensOf (unpack_files_to_duckdb_events true files dbg) = []
    ∧ closesOf (unpack_files_to_duckdb_events true files dbg) = []
    ∧ (connect_sql env db host user pw false "mssql" e de none).events =
        [.openH 0]
    ∧ (connect_sql env db host user pw false "mssql" e de none).result =
        .ok (some 0) := by
  have hh' : host.isEmpty = false := by
    cases hE : host.isEmpty
    · rfl
    · exact absurd ((String.isEmpty_iff host).mp hE) hh
  have hd' : db.isEmpty = false := by
    cases hE : db.isEmpty
    · rfl
    · exact absurd ((String.isEmpty_iff db).mp hE) hd
  refine ⟨?_, ?_, ?_, ?_, ?_, ?_, ?_, ?_⟩
  · simp [allClosed, load_sqlite_to_duckdb_events, opensOf, closesOf,
      List.filterMap_append, List.filterMap_cons, opensOf_readData,
      closesOf_readData]
  · cases fdb <;>
      simp [allClosed, load_sql_to_sqlite_events, opensOf, closesOf,
        List.filterMap_append, List.filterMap_cons, opensOf_readData,
        closesOf_readData]
  · rcases p with ⟨path, pe, suf⟩
    simp only [print_meta_events]
    split
    · rfl
    · split <;> rfl
  · cases dbg <;>
      simp [allClosed, unpack_files_to_duckdb_events, opensOf, closesOf,
        List.filterMap_append, List.filterMap_cons, opensOf_readData,
        closesOf_readData]
  · cases dbg <;>
      simp [unpack_files_to_duckdb_events, opensOf, opensOf_readData]
  · cases dbg <;>
      simp [unpack_files_to_duckdb_events, closesOf, closesOf_readData]
  · simp [connect_sql, resolve, truthy, pyStr, hh', hd']
  · simp [connect_sql, resolve, truthy, pyStr, hh', hd']

/-- Witness for C8 (amended) at concrete inputs. -/
theorem C8_witness :
    allClosed (load_sqlite_to_duckdb_events ["t1", "t2"]) = true
    ∧ allClosed (unpack_files_to_duckdb_events false ["a", "b"] false) = true
    ∧ closesOf (unpack_files_to_duckdb_events true ["a", "b"] false) = []
    ∧ (connect_sql (fun _ => none) "mydb" "srv" "u" "p" false "mssql" false
        false none).events = [.openH 0] := by
  have h := C8_handles_scoped ["t1", "t2"] ["a", "b"] false false
    ⟨"x.db", true, ".db"⟩ (fun _ => none) "mydb" "srv" "u" "p" false false
    (by decide) (by decide)
  exact ⟨h.1, h.2.2.2.1, h.2.2.2.2.2.1, h.2.2.2.2.2.2.1⟩

end ConnectionHelper
